import Mathlib

/-!
# Verification of the clowdr-backend chat handlers (`src/Chat.ts`)

A shallow embedding of the chat request handlers of the repository's
`src/Chat.ts` (the later of the two revisions contained in that file, the
one whose `handleCreateChat` supports `forVideoRoom` and mirrors state into
the Parse `TextChat` store).

Modelling conventions:
* The Twilio chat service state (channels with their members, invites and
  messages, plus the provider-level user records) and the Parse document
  store (the `TextChat` mirror records) are explicit state records threaded
  through each handler.
* Asynchronous provider calls are sequentialised in program order;
  `Promise.all` loops are folded left over the list in order.
* `callWithRetry` wraps every provider mutation; whether a mutation
  ultimately succeeds (possibly after retries) or ultimately fails is
  decided by a failure oracle `Env.fails` on the mutation kind.  A failed
  mutation leaves the state unchanged and raises, carrying the state
  reached so far.
* An exception that escapes the handler body reaches the surrounding
  `catch (e) { next(e) }` and produces no response from the handler
  itself; this outcome is the `nextErr` response constructor.
* JavaScript `localeCompare(x) === -1` is modelled as lexicographic
  `String` order `<`.
* Request-body fields arrive as `Option` (absent vs present) of values;
  array elements are `JVal` so that the per-element `typeof === "string"`
  checks are represented.  The `instanceof Array` / `typeof` checks on
  fields the model types statically cannot fail and are noted inline.
-/

set_option maxRecDepth 4096

namespace Clowdr

/-- A JSON value as found in the elements of a request-body array. -/
inductive JVal where
  | jstr (s : String)
  | jnum (n : Int)
  | jbool (b : Bool)
  deriving Repr, DecidableEq

/-- The two Twilio service roles resolved by `friendlyName` at the top of the
handlers (`channel admin` and `channel user`); their existence is asserted by
the source, so the model carries them as an enumeration. -/
inductive RoleSid where
  | chanAdmin
  | chanUser
  deriving Repr, DecidableEq

/-- A membership or invitation record of a channel: an identity together with
the role SID it was created with. -/
structure Participant where
  identity : String
  roleSid : RoleSid
  deriving Repr, DecidableEq

/-- The parsed attribute bag of a chat message: the `reactions` object
(an insertion-ordered map from reaction identifier to the list of user
profile ids that reacted) together with all other top-level keys,
modelled opaquely. -/
structure MessageAttrs where
  reactions : List (String × List String)
  others : List (String × String)
  deriving Repr, DecidableEq

/-- A chat message: its SID and its parsed attribute bag. -/
structure Message where
  sid : String
  attributes : MessageAttrs
  deriving Repr, DecidableEq

/-- A Twilio chat channel.  `isDM` is the parsed `attributes` bag
(`JSON.stringify({isDM})` at creation). -/
structure Channel where
  sid : String
  uniqueName : String
  friendlyName : String
  createdBy : String
  type : String
  isDM : Bool
  members : List Participant
  invites : List Participant
  messages : List Message
  deriving Repr, DecidableEq

/-- A Parse ACL, restricted to the operations the source uses: public
read/write flags, per-role read/write grants (keyed by conference role
name: `attendee`, `manager`, `admin`) and per-user read grants (keyed by
the profile's underlying `user` account id). -/
structure ACL where
  publicRead : Bool
  publicWrite : Bool
  roleRead : List String
  roleWrite : List String
  userRead : List String
  deriving Repr, DecidableEq

/-- `new Parse.ACL()`: an ACL granting nothing. -/
def ACL.new : ACL := ⟨false, false, [], [], []⟩

def ACL.setPublicRead (acl : ACL) (b : Bool) : ACL := { acl with publicRead := b }

def ACL.setPublicWrite (acl : ACL) (b : Bool) : ACL := { acl with publicWrite := b }

/-- `acl.setRoleReadAccess(role, true)` (the source only ever grants). -/
def ACL.grantRoleRead (acl : ACL) (role : String) : ACL :=
  { acl with roleRead := if role ∈ acl.roleRead then acl.roleRead else acl.roleRead ++ [role] }

/-- `acl.setRoleWriteAccess(role, true)`. -/
def ACL.grantRoleWrite (acl : ACL) (role : String) : ACL :=
  { acl with roleWrite := if role ∈ acl.roleWrite then acl.roleWrite else acl.roleWrite ++ [role] }

/-- `acl.setReadAccess(user, true)`. -/
def ACL.grantUserRead (acl : ACL) (userId : String) : ACL :=
  { acl with userRead := if userId ∈ acl.userRead then acl.userRead else acl.userRead ++ [userId] }

/-- `acl.getRoleReadAccess(role)`. -/
def ACL.getRoleRead (acl : ACL) (role : String) : Bool :=
  role ∈ acl.roleRead

/-- A `TextChat` mirror record in the Parse document store. -/
structure TextChat where
  id : String
  conference : String
  twilioID : String
  autoWatch : Bool
  mirrored : Bool
  name : String
  acl : ACL
  deriving Repr, DecidableEq

/-- A Parse `UserProfile`: its object id, display name, and the object id of
its underlying `user` account (`profile.get("user")`). -/
structure Profile where
  id : String
  displayName : String
  user : String
  deriving Repr, DecidableEq

/-- The combined external state a handler reads and mutates: the Twilio chat
service (channels and service-level user records) and the Parse store's
`TextChat` mirror records. -/
structure ServiceState where
  channels : List Channel
  users : List String
  textChats : List TextChat
  deriving Repr, DecidableEq

/-- The kinds of provider mutations issued through `callWithRetry`
(plus service-user creation inside `ensureTwilioUsersExist`). -/
inductive MutKind where
  | channelCreate
  | channelRemove
  | userCreate (identity : String)
  | memberCreate (identity : String)
  | inviteCreate (identity : String)
  deriving Repr, DecidableEq

/-- The per-request environment: the conference scope, the document store's
profiles for that conference, the result of organisational role resolution,
the failure oracle for provider mutations, and the fresh identifiers the
external systems would mint during this request. -/
structure Env where
  conf : String
  profiles : List Profile
  managerUserIds : List String
  fails : MutKind → Bool
  uuid : String
  freshChannelSid : String
  freshTextChatId : String

/-- `getUserProfileByID(id, conf)` (ParseHelpers): look the profile id up in
the conference's profiles. -/
def getUserProfileByID (env : Env) (id : String) : Option Profile :=
  env.profiles.find? (·.id = id)

/-- Modelled from the spec: `isUserInRoles(userId, confId, ["admin", "manager"])`
comes from `Roles.ts`, which is not part of the provided sources.  Per the
spec's Identity & Role Resolver it determines whether the user's
organisational privilege level is manager or admin — a pure boolean lookup. -/
def isUserInRoles (env : Env) (userId : String) : Bool :=
  userId ∈ env.managerUserIds

/-- The role SID used when creating the requester's own membership:
`isDM && !userIsManager ? channelUserRole.sid : channelAdminRole.sid`
(identical at the existing-channel and new-channel call sites). -/
def requesterMemberRole (env : Env) (isDM : Bool) (p : Profile) : RoleSid :=
  if isDM && !(isUserInRoles env p.user) then .chanUser else .chanAdmin

/-- The role SID used when creating an invitation:
`userIsManager ? channelAdminRole.sid : channelUserRole.sid`
(identical in `handleCreateChat` and `handleInviteToChat`). -/
def inviteeRole (env : Env) (p : Profile) : RoleSid :=
  if isUserInRoles env p.user then .chanAdmin else .chanUser

def ServiceState.findChannel (st : ServiceState) (sid : String) : Option Channel :=
  st.channels.find? (·.sid = sid)

/-- `channel.members().create({identity, roleSid})` applied to the state. -/
def ServiceState.addMember (st : ServiceState) (sid : String) (m : Participant) : ServiceState :=
  { st with channels := st.channels.map fun c =>
      if c.sid = sid then { c with members := c.members ++ [m] } else c }

/-- `channel.invites().create({identity, roleSid})` applied to the state. -/
def ServiceState.addInvite (st : ServiceState) (sid : String) (m : Participant) : ServiceState :=
  { st with channels := st.channels.map fun c =>
      if c.sid = sid then { c with invites := c.invites ++ [m] } else c }

/-- `channel.remove()` applied to the state. -/
def ServiceState.removeChannel (st : ServiceState) (sid : String) : ServiceState :=
  { st with channels := st.channels.filter (·.sid ≠ sid) }

/-- `message.update({attributes})` applied to the state. -/
def ServiceState.updateMessage (st : ServiceState) (chSid msgSid : String)
    (attrs : MessageAttrs) : ServiceState :=
  { st with channels := st.channels.map fun c =>
      if c.sid = chSid then
        { c with messages := c.messages.map fun m =>
            if m.sid = msgSid then { m with attributes := attrs } else m }
      else c }

/-- Parse's `textChat.save()` after `setACL`: replace the record by id. -/
def ServiceState.saveTextChat (st : ServiceState) (tc : TextChat) : ServiceState :=
  { st with textChats := st.textChats.map fun t => if t.id = tc.id then tc else t }

/-! ## String order for the DM unique key

The source orders the two DM participant ids with
`a.localeCompare(b) === -1`; the model uses code-point lexicographic
comparison, written structurally so that it evaluates by `decide`. -/

/-- JavaScript `String.prototype.trim`, modelled structurally over the
character list so that it evaluates by `decide`. -/
def strTrim (s : String) : String :=
  ⟨((s.data.dropWhile Char.isWhitespace).reverse.dropWhile Char.isWhitespace).reverse⟩

/-- JavaScript `substr(0, n)`, modelled structurally. -/
def strTake (s : String) (n : Nat) : String := ⟨s.data.take n⟩

/-- JavaScript `String.prototype.length`, modelled structurally. -/
def strLength (s : String) : Nat := s.data.length

/-- Lexicographic strict order on character lists by code point. -/
def lexLt : List Char → List Char → Bool
  | [], [] => false
  | [], _ :: _ => true
  | _ :: _, [] => false
  | a :: as, b :: bs =>
    if a.toNat < b.toNat then true
    else if b.toNat < a.toNat then false
    else lexLt as bs

/-- `a.localeCompare(b) === -1`, modelled as code-point lexicographic order. -/
def strLt (a b : String) : Bool := lexLt a.data b.data

/-! ## Channel provisioning (`handleCreateChat` / `handleInviteToChat`) -/

/-- The DM branch of the unique-key computation:
the two participant identities joined by `-`, smaller first, truncated to
Twilio's 64-character limit. -/
def dmUniqueName (a b : String) : String :=
  strTake (if strLt a b then a ++ "-" ++ b else b ++ "-" ++ a) 64

/-- `ensureTwilioUsersExist`: the service-level user list is fetched once
(`preExisting`); each profile missing from it gets a service user created.
A creation failure aborts, carrying the state reached so far. -/
def ensureUsersLoop (env : Env) (preExisting : List String) :
    List Profile → ServiceState → Except ServiceState ServiceState
  | [], s => .ok s
  | p :: ps, s =>
    if p.id ∈ preExisting then ensureUsersLoop env preExisting ps s
    else if env.fails (.userCreate p.id) then .error s
    else ensureUsersLoop env preExisting ps { s with users := s.users ++ [p.id] }

/-- The invitation loop on the new-channel path: every invitee receives an
invitation (no diffing — the channel is fresh), with the admin role iff
their organisational privilege is manager/admin. -/
def createInvitesFresh (env : Env) (sid : String) :
    List Profile → ServiceState → Except ServiceState ServiceState
  | [], s => .ok s
  | p :: ps, s =>
    if env.fails (.inviteCreate p.id) then .error s
    else createInvitesFresh env sid ps (s.addInvite sid ⟨p.id, inviteeRole env p⟩)

/-- The invitation loop on the existing-channel path (shared verbatim with
`handleInviteToChat`): the member and invite identity lists are fetched once
before the loop and each target already present in either list is skipped. -/
def createInvitesExisting (env : Env) (sid : String) (members invites : List String) :
    List Profile → ServiceState → Except ServiceState ServiceState
  | [], s => .ok s
  | p :: ps, s =>
    if p.id ∈ members || p.id ∈ invites then
      createInvitesExisting env sid members invites ps s
    else if env.fails (.inviteCreate p.id) then .error s
    else createInvitesExisting env sid members invites ps
      (s.addInvite sid ⟨p.id, inviteeRole env p⟩)

/-- `getOrCreateTextChat`: find the mirror record by the composite key
(conference, channel SID); create and save it if absent, with
`autoWatch = isDM`, `mirrored = false`, `name` = channel's friendly name and
an empty ACL. -/
def getOrCreateTextChat (env : Env) (st : ServiceState) (channel : Channel)
    (isDM : Bool) : TextChat × ServiceState :=
  match st.textChats.find? (fun tc => tc.conference = env.conf ∧ tc.twilioID = channel.sid) with
  | some tc => (tc, st)
  | none =>
    let tc : TextChat :=
      { id := env.freshTextChatId, conference := env.conf, twilioID := channel.sid,
        autoWatch := isDM, mirrored := false, name := channel.friendlyName,
        acl := ACL.new }
    (tc, { st with textChats := st.textChats ++ [tc] })

/-- The per-member loop of `updateTextChatACLs`: for each identity that
resolves to a profile, grant the profile's underlying user read access; a
lookup miss is skipped. -/
def grantProfileReads (env : Env) (ids : List String) (acl : ACL) : ACL :=
  ids.foldl (fun a profileId =>
    match getUserProfileByID env profileId with
    | some profile => a.grantUserRead profile.user
    | none => a) acl

/-- `updateTextChatACLs`: rebuild the mirror record's ACL from scratch.
When the privacy flag is omitted it is derived as
`existingACL?.getRoleReadAccess(attendeeRole) ?? false`.  Managers and
admins always get read+write; if private, every current member and invitee
whose identity resolves to a profile gets per-user read access (a lookup
miss is skipped); if public, the attendee role gets read access. -/
def updateTextChatACLs (env : Env) (channel : Channel) (textChat : TextChat)
    (isPrivateArg : Option Bool) : TextChat :=
  let isPrivate :=
    match isPrivateArg with
    | some b => b
    | none => textChat.acl.getRoleRead "attendee"
  let acl0 := ((ACL.new.setPublicRead false).setPublicWrite false)
  let acl1 := (acl0.grantRoleRead "manager").grantRoleWrite "manager"
  let acl2 := (acl1.grantRoleRead "admin").grantRoleWrite "admin"
  if isPrivate then
    let memberIds := channel.members.map (·.identity)
    let invitedIds := channel.invites.map (·.identity)
    let allIds := memberIds ++ invitedIds
    { textChat with acl := grantProfileReads env allIds acl2 }
  else
    { textChat with acl := acl2.grantRoleRead "attendee" }

/-- Responses of `handleCreateChat`. -/
inductive CreateChatResp where
  | badRequest (status : String)
  | serverError (status : String)
  | ok (channelSID : String) (textChatID : String)
  | nextErr
  deriving Repr, DecidableEq

/-- The request body of `createChat`.  Fields are `Option` (absent vs
present); `invite` elements are `JVal` so that the per-element
`typeof === "string"` check is represented.  The `instanceof Array` check on
`invite` and the `typeof title` check cannot fail in this typed model. -/
structure CreateChatBody where
  invite : Option (List JVal)
  mode : Option String
  title : Option String
  forVideoRoom : Bool
  deriving Repr, DecidableEq

/-- The tail shared by both paths of `handleCreateChat` (lines 607–612 of the
second revision): find-or-create the mirror record, rebuild its ACL with the
explicit privacy flag, respond 200 with the channel SID and record id.
The channel is re-read from the current state, as the live Twilio handle
reflects the mutations performed above. -/
def finishCreateChat (env : Env) (st : ServiceState) (chSid : String)
    (isDM isPrivate : Bool) : CreateChatResp × ServiceState :=
  match st.findChannel chSid with
  | none => (.nextErr, st)
  | some ch =>
    let (textChat, st1) := getOrCreateTextChat env st ch isDM
    let textChat2 := updateTextChatACLs env ch textChat (some isPrivate)
    let st2 := st1.saveTextChat textChat2
    (.ok chSid textChat.id, st2)

/-- The `catch` block of the new-channel path: delete the freshly created
channel through the retry wrapper, then respond 500.  If the deletion itself
fails, the exception escapes to `next(e)`. -/
def compensate (env : Env) (st : ServiceState) (sid : String) :
    CreateChatResp × ServiceState :=
  if env.fails .channelRemove then (.nextErr, st)
  else (.serverError "Failed to add or invite members.", st.removeChannel sid)

/-- `handleCreateChat` after validation and profile resolution: channel
resolution, membership reconciliation, compensation and mirror-state
synchronisation. -/
def handleCreateChatResolved (env : Env) (st : ServiceState) (userProfile : Profile)
    (mode title : String) (userProfilesToInvite : List Profile) (forVideoRoom : Bool) :
    CreateChatResp × ServiceState :=
  let isPrivate : Bool := mode == "private"
  let isDM : Bool := isPrivate && (userProfilesToInvite.length == 1) && !forVideoRoom
  let uniqueName :=
    if isDM then
      match userProfilesToInvite.head? with
      | some p => dmUniqueName userProfile.id p.id
      | none => strTake (userProfile.id ++ "-" ++ env.uuid) 64
    else strTake (userProfile.id ++ "-" ++ env.uuid) 64
  let friendlyName := if isDM then uniqueName else title
  let createdBy := if isDM then "system" else userProfile.id
  let existingChannels :=
    if isDM then st.channels.filter (·.uniqueName = uniqueName) else []
  match existingChannels with
  | newChannel :: _ =>
    let members := newChannel.members.map (·.identity)
    let invites := newChannel.invites.map (·.identity)
    let step1 : Except ServiceState ServiceState :=
      if userProfile.id ∈ members then .ok st
      else if env.fails (.memberCreate userProfile.id) then .error st
      else .ok (st.addMember newChannel.sid
        ⟨userProfile.id, requesterMemberRole env isDM userProfile⟩)
    match step1 with
    | .error s => (.nextErr, s)
    | .ok s1 =>
      match createInvitesExisting env newChannel.sid members invites userProfilesToInvite s1 with
      | .error s2 => (.nextErr, s2)
      | .ok s2 => finishCreateChat env s2 newChannel.sid isDM isPrivate
  | [] =>
    if env.fails .channelCreate then (.nextErr, st)
    else
      let newChannel : Channel :=
        { sid := env.freshChannelSid, uniqueName := uniqueName,
          friendlyName := friendlyName, createdBy := createdBy, type := mode,
          isDM := isDM, members := [], invites := [], messages := [] }
      let stC := { st with channels := st.channels ++ [newChannel] }
      match ensureUsersLoop env stC.users (userProfilesToInvite ++ [userProfile]) stC with
      | .error s1 => compensate env s1 newChannel.sid
      | .ok s1 =>
        if env.fails (.memberCreate userProfile.id) then compensate env s1 newChannel.sid
        else
          let s2 := s1.addMember newChannel.sid
            ⟨userProfile.id, requesterMemberRole env isDM userProfile⟩
          match createInvitesFresh env newChannel.sid userProfilesToInvite s2 with
          | .error s3 => compensate env s3 newChannel.sid
          | .ok s3 => finishCreateChat env s3 newChannel.sid isDM isPrivate

/-- `handleCreateChat` (second revision of `src/Chat.ts`).  Note: unlike the
earlier revision and unlike `handleInviteToChat`, the
`userProfileIdsToInvite.length === 0` check after filtering out the
requester's own id is absent from this revision. -/
def handleCreateChat (env : Env) (st : ServiceState) (userProfile : Profile)
    (body : CreateChatBody) : CreateChatResp × ServiceState :=
  match body.invite, body.mode, body.title.map strTrim with
  | some inviteVals, some mode, some title =>
    if title = "" ∨ mode = "" then (.badRequest "Missing request parameter(s).", st)
    else if ¬ (inviteVals.all fun v => match v with | .jstr _ => true | _ => false) then
      (.badRequest "Invited member ids should be strings.", st)
    else
      let allIds := inviteVals.filterMap fun v => match v with | .jstr s => some s | _ => none
      let userProfileIdsToInvite := allIds.filter (· ≠ userProfile.id)
      if mode ≠ "public" ∧ mode ≠ "private" then
        (.badRequest "Mode should be 'public' or 'private'.", st)
      else if strLength (strTrim title) < 5 then
        (.badRequest "Title should be a trimmed string of at least 5 non-empty characters.", st)
      else
        let profs := userProfileIdsToInvite.map (getUserProfileByID env)
        if ¬ (profs.all Option.isSome) then (.badRequest "Users to invite invalid.", st)
        else
          handleCreateChatResolved env st userProfile mode (strTrim title)
            (profs.filterMap id) body.forVideoRoom
  | _, _, _ => (.badRequest "Missing request parameter(s).", st)

/-- Responses of `handleInviteToChat`. -/
inductive InviteResp where
  | badRequest (status : String)
  | forbidden (msg : String)
  | serverError (msg : String)
  | okEmpty
  | nextErr
  deriving Repr, DecidableEq

/-- The request body of `inviteToChat`. -/
structure InviteChatBody where
  targetIdentities : Option (List JVal)
  channel : Option String
  deriving Repr, DecidableEq

/-- `handleInviteToChat` (second revision of `src/Chat.ts`). -/
def handleInviteToChat (env : Env) (st : ServiceState) (userProfile : Profile)
    (body : InviteChatBody) : InviteResp × ServiceState :=
  match body.targetIdentities, body.channel with
  | some targetVals, some channelSID =>
    if channelSID = "" then (.badRequest "Missing request parameter(s).", st)
    else if ¬ (targetVals.all fun v => match v with | .jstr _ => true | _ => false) then
      (.badRequest "Invited member ids should be strings.", st)
    else
      let allIds := targetVals.filterMap fun v => match v with | .jstr s => some s | _ => none
      let userProfileIdsToInvite := allIds.filter (· ≠ userProfile.id)
      if userProfileIdsToInvite.length = 0 then
        (.badRequest "Invited members should be a non-empty array (that does not include yourself).", st)
      else
        let profs := userProfileIdsToInvite.map (getUserProfileByID env)
        if ¬ (profs.all Option.isSome) then (.badRequest "Users to invite invalid.", st)
        else
          let userProfilesToInvite := profs.filterMap id
          match st.findChannel channelSID with
          | none => (.serverError "Channel not found.", st)
          | some existingChannel =>
            if ¬ existingChannel.isDM then
              let members := existingChannel.members.map (·.identity)
              let invites := existingChannel.invites.map (·.identity)
              if userProfile.id ∈ members then
                match createInvitesExisting env existingChannel.sid members invites
                    userProfilesToInvite st with
                | .error sF => (.nextErr, sF)
                | .ok s1 =>
                  match s1.findChannel channelSID with
                  | none => (.nextErr, s1)
                  | some ch1 =>
                    let (textChat, s2) := getOrCreateTextChat env s1 ch1 existingChannel.isDM
                    let textChat2 := updateTextChatACLs env ch1 textChat none
                    (.okEmpty, s2.saveTextChat textChat2)
              else (.forbidden "Access denied.", st)
            else (.badRequest "Cannot invite more users to a DM chat.", st)
  | _, _ => (.badRequest "Missing request parameter(s).", st)

/-! ## Reaction handlers (`handleAddReaction` / `handleRemoveReaction`) -/

/-- `reactions[reaction]` on the insertion-ordered reactions object. -/
def lookupReaction (rs : List (String × List String)) (k : String) : Option (List String) :=
  (rs.find? (·.1 = k)).map (·.2)

/-- `reactions[reaction] = users`: replace the value in place if the key
exists, otherwise append the key. -/
def setReaction (rs : List (String × List String)) (k : String) (v : List String) :
    List (String × List String) :=
  if (rs.find? (·.1 = k)).isSome then rs.map fun kv => if kv.1 = k then (k, v) else kv
  else rs ++ [(k, v)]

/-- `delete reactions[reaction]`. -/
def deleteReaction (rs : List (String × List String)) (k : String) :
    List (String × List String) :=
  rs.filter (·.1 ≠ k)

/-- The read-modify-write on the message attribute bag performed by
`handleAddReaction`: returns `none` when the user is already in the
reaction's user list and no `message.update` is issued. -/
def addReactionToAttrs (attrs : MessageAttrs) (userId reaction : String) :
    Option MessageAttrs :=
  let reactionUsers := (lookupReaction attrs.reactions reaction).getD []
  if userId ∈ reactionUsers then none
  else some { attrs with
              reactions := setReaction attrs.reactions reaction (reactionUsers ++ [userId]) }

/-- The read-modify-write on the message attribute bag performed by
`handleRemoveReaction`: returns `none` when the user is absent from the
reaction's user list and no `message.update` is issued. -/
def removeReactionFromAttrs (attrs : MessageAttrs) (userId reaction : String) :
    Option MessageAttrs :=
  let reactionUsers := (lookupReaction attrs.reactions reaction).getD []
  if userId ∈ reactionUsers then
    let remaining := reactionUsers.filter (· ≠ userId)
    let rs1 := setReaction attrs.reactions reaction remaining
    let rs2 := if remaining.length = 0 then deleteReaction rs1 reaction else rs1
    some { attrs with reactions := rs2 }
  else none

/-- Responses of the reaction handlers. -/
inductive ReactionResp where
  | badRequest (status : String)
  | forbidden (status : String)
  | okTrue
  | nextErr
  deriving Repr, DecidableEq

/-- `handleAddReaction` (second revision of `src/Chat.ts`). -/
def handleAddReaction (st : ServiceState) (userProfile : Profile)
    (channelSid messageSid reaction : String) : ReactionResp × ServiceState :=
  if channelSid = "" then (.badRequest "Invalid or missing channel sid", st)
  else if messageSid = "" then (.badRequest "Invalid or missing message sid", st)
  else if reaction = "" then (.badRequest "Invalid or missing reaction", st)
  else match st.findChannel channelSid with
    | none => (.nextErr, st)
    | some channel =>
      if !(channel.members.any (·.identity = userProfile.id)) then
        (.forbidden "Invalid channel", st)
      else match channel.messages.find? (·.sid = messageSid) with
        | none => (.nextErr, st)
        | some message =>
          match addReactionToAttrs message.attributes userProfile.id reaction with
          | none => (.okTrue, st)
          | some attrs1 => (.okTrue, st.updateMessage channelSid messageSid attrs1)

/-- `handleRemoveReaction` (second revision of `src/Chat.ts`). -/
def handleRemoveReaction (st : ServiceState) (userProfile : Profile)
    (channelSid messageSid reaction : String) : ReactionResp × ServiceState :=
  if channelSid = "" then (.badRequest "Invalid or missing channel sid", st)
  else if messageSid = "" then (.badRequest "Invalid or missing message sid", st)
  else if reaction = "" then (.badRequest "Invalid or missing reaction", st)
  else match st.findChannel channelSid with
    | none => (.nextErr, st)
    | some channel =>
      if !(channel.members.any (·.identity = userProfile.id)) then
        (.forbidden "Invalid channel", st)
      else match channel.messages.find? (·.sid = messageSid) with
        | none => (.nextErr, st)
        | some message =>
          match removeReactionFromAttrs message.attributes userProfile.id reaction with
          | none => (.okTrue, st)
          | some attrs1 => (.okTrue, st.updateMessage channelSid messageSid attrs1)

/-! ## Supporting lemmas -/

lemma mem_grantUserRead (acl : ACL) (x u : String) :
    u ∈ (acl.grantUserRead x).userRead ↔ u ∈ acl.userRead ∨ u = x := by
  unfold ACL.grantUserRead
  by_cases h : x ∈ acl.userRead
  · simp only [if_pos h]
    exact ⟨Or.inl, fun hu => by rcases hu with hu | rfl <;> assumption⟩
  · simp [if_neg h]

lemma userRead_grantProfileReads (env : Env) (ids : List String) (acl : ACL) (u : String) :
    u ∈ (grantProfileReads env ids acl).userRead ↔
      u ∈ acl.userRead ∨ ∃ i ∈ ids, ∃ p, getUserProfileByID env i = some p ∧ p.user = u := by
  induction ids generalizing acl with
  | nil => simp [grantProfileReads]
  | cons i is ih =>
    simp only [grantProfileReads, List.foldl_cons] at ih ⊢
    cases h : getUserProfileByID env i with
    | none =>
      simp only [h, ih, List.exists_mem_cons_iff, Option.some.injEq]
      constructor
      · rintro (hu | hex)
        · exact Or.inl hu
        · exact Or.inr (Or.inr hex)
      · rintro (hu | ⟨p, hp, _⟩ | hex)
        · exact Or.inl hu
        · exact absurd hp (by simp)
        · exact Or.inr hex
    | some q =>
      simp only [h, ih, mem_grantUserRead, List.exists_mem_cons_iff, Option.some.injEq]
      constructor
      · rintro ((hu | rfl) | hex)
        · exact Or.inl hu
        · exact Or.inr (Or.inl ⟨q, rfl, rfl⟩)
        · exact Or.inr (Or.inr hex)
      · rintro (hu | ⟨p, hp, hpu⟩ | hex)
        · exact Or.inl (Or.inl hu)
        · exact Or.inl (Or.inr (by rw [← hpu, hp]))
        · exact Or.inr hex

lemma grantProfileReads_proj (env : Env) (ids : List String) (acl : ACL) :
    (grantProfileReads env ids acl).roleRead = acl.roleRead
    ∧ (grantProfileReads env ids acl).roleWrite = acl.roleWrite
    ∧ (grantProfileReads env ids acl).publicRead = acl.publicRead
    ∧ (grantProfileReads env ids acl).publicWrite = acl.publicWrite := by
  induction ids generalizing acl with
  | nil => simp [grantProfileReads]
  | cons i is ih =>
    simp only [grantProfileReads, List.foldl_cons] at ih ⊢
    cases h : getUserProfileByID env i with
    | none => simp only [h]; exact ih _
    | some q => simp only [h]; exact ih _

lemma roleRead_grantProfileReads (env : Env) (ids : List String) (acl : ACL) :
    (grantProfileReads env ids acl).roleRead = acl.roleRead :=
  (grantProfileReads_proj env ids acl).1

lemma roleWrite_grantProfileReads (env : Env) (ids : List String) (acl : ACL) :
    (grantProfileReads env ids acl).roleWrite = acl.roleWrite :=
  (grantProfileReads_proj env ids acl).2.1

lemma publicRead_grantProfileReads (env : Env) (ids : List String) (acl : ACL) :
    (grantProfileReads env ids acl).publicRead = acl.publicRead :=
  (grantProfileReads_proj env ids acl).2.2.1

lemma publicWrite_grantProfileReads (env : Env) (ids : List String) (acl : ACL) :
    (grantProfileReads env ids acl).publicWrite = acl.publicWrite :=
  (grantProfileReads_proj env ids acl).2.2.2

/-! ## The claims -/

/-- **C4**: a participant processed by `createChat` or `inviteToChat` is
assigned the channel-admin role iff they are the requester in a non-DM
channel or their resolved conference privilege is manager/admin; in every
other case the channel-user role is assigned.  `requesterMemberRole` and
`inviteeRole` are the role computations used at all five call sites
(requester membership on the existing- and new-channel paths; invitation
creation on both `createChat` paths and in `inviteToChat`). -/
theorem c4_role_assignment (env : Env) (isDM : Bool) (p : Profile) :
    (requesterMemberRole env isDM p = .chanAdmin
        ↔ (isDM = false ∨ isUserInRoles env p.user = true))
    ∧ (requesterMemberRole env isDM p = .chanUser
        ↔ (isDM = true ∧ isUserInRoles env p.user = false))
    ∧ (inviteeRole env p = .chanAdmin ↔ isUserInRoles env p.user = true)
    ∧ (inviteeRole env p = .chanUser ↔ isUserInRoles env p.user = false) := by
  unfold requesterMemberRole inviteeRole
  cases isDM <;> cases h : isUserInRoles env p.user <;> simp [h]

/-- Environment for the C5 counter-scenario: the conference has no other
profiles and no mutation fails. -/
def c5Env : Env :=
  { conf := "conf1", profiles := [⟨"bob", "Bob", "uB"⟩], managerUserIds := [],
    fails := fun _ => false, uuid := "uuid0001",
    freshChannelSid := "CH001", freshTextChatId := "TC001" }

/-- **C5**: the claim fails on the code.  In this revision of
`handleCreateChat` the `userProfileIdsToInvite.length === 0` check after
filtering out the requester's own id is absent (it is present in the
earlier revision and in `handleInviteToChat`), so a request whose invite
list contains only the requester's own id passes validation, creates a
channel on the provider, and is answered 200 — not 400. -/
theorem c5_self_only_invite_creates_channel :
    (handleCreateChat c5Env ⟨[], [], []⟩ ⟨"alice", "Alice", "uA"⟩
        { invite := some [.jstr "alice"], mode := some "private",
          title := some "Hello there", forVideoRoom := false }).1
      = .ok "CH001" "TC001"
    ∧ ((handleCreateChat c5Env ⟨[], [], []⟩ ⟨"alice", "Alice", "uA"⟩
        { invite := some [.jstr "alice"], mode := some "private",
          title := some "Hello there", forVideoRoom := false }).2).channels.length = 1 := by
  decide

/-- Channel for the C6 counter-scenario: one member, `alice`. -/
def c6Channel : Channel :=
  { sid := "CH9", uniqueName := "general", friendlyName := "General",
    createdBy := "alice", type := "public", isDM := false,
    members := [⟨"alice", .chanAdmin⟩], invites := [], messages := [] }

/-- A mirror record currently configured as public: the attendee role holds
read access (exactly what `updateTextChatACLs` produces for a public
channel). -/
def c6PublicRecord : TextChat :=
  { id := "TC9", conference := "conf1", twilioID := "CH9", autoWatch := false,
    mirrored := false, name := "General",
    acl := ((ACL.new.grantRoleRead "manager").grantRoleRead "admin").grantRoleRead "attendee" }

/-- A mirror record currently configured as private: the attendee role lacks
read access. -/
def c6PrivateRecord : TextChat :=
  { id := "TC8", conference := "conf1", twilioID := "CH9", autoWatch := false,
    mirrored := false, name := "General",
    acl := (ACL.new.grantRoleRead "manager").grantRoleRead "admin" }

/-- Environment for the C6 counter-scenario. -/
def c6Env : Env :=
  { conf := "conf1", profiles := [⟨"alice", "Alice", "uA"⟩], managerUserIds := [],
    fails := fun _ => false, uuid := "u",
    freshChannelSid := "CH1", freshTextChatId := "TC1" }

/-- **C6**: the claim fails on the code.  With the privacy flag omitted,
`updateTextChatACLs` sets `isPrivate := existingACL?.getRoleReadAccess(attendeeRole) ?? false`,
i.e. it equates "attendee currently holds read access" — the *public*
configuration — with privacy.  A record currently public is therefore
rebuilt as private (attendee read revoked, members enumerated) and a record
currently private is rebuilt as public (attendee read granted, no per-user
grants): the rebuild flips the classification instead of preserving it. -/
theorem c6_privacy_flag_derivation_inverted :
    ((updateTextChatACLs c6Env c6Channel c6PublicRecord none).acl.getRoleRead "attendee" = false
      ∧ (updateTextChatACLs c6Env c6Channel c6PublicRecord none).acl.userRead = ["uA"])
    ∧ ((updateTextChatACLs c6Env c6Channel c6PrivateRecord none).acl.getRoleRead "attendee" = true
      ∧ (updateTextChatACLs c6Env c6Channel c6PrivateRecord none).acl.userRead = []) := by
  decide

/-- **C7**: the ACL rebuild with an explicit privacy flag.  Private: the
per-user read grants are exactly the underlying users of current members
and invitees whose identity resolves to a profile (lookup misses skipped),
and the manager and admin roles get read and write.  Public: the attendee
role gets read access and there are no per-user grants.  Public read/write
access is disabled in both cases. -/
theorem c7_acl_rebuild_exact (env : Env) (ch : Channel) (tc : TextChat) :
    (∀ u, u ∈ (updateTextChatACLs env ch tc (some true)).acl.userRead ↔
        ∃ i ∈ ch.members.map Participant.identity ++ ch.invites.map Participant.identity,
          ∃ p, getUserProfileByID env i = some p ∧ p.user = u)
    ∧ (updateTextChatACLs env ch tc (some true)).acl.roleRead = ["manager", "admin"]
    ∧ (updateTextChatACLs env ch tc (some true)).acl.roleWrite = ["manager", "admin"]
    ∧ (updateTextChatACLs env ch tc (some true)).acl.publicRead = false
    ∧ (updateTextChatACLs env ch tc (some true)).acl.publicWrite = false
    ∧ (updateTextChatACLs env ch tc (some false)).acl.roleRead = ["manager", "admin", "attendee"]
    ∧ (updateTextChatACLs env ch tc (some false)).acl.userRead = []
    ∧ (updateTextChatACLs env ch tc (some false)).acl.publicRead = false
    ∧ (updateTextChatACLs env ch tc (some false)).acl.publicWrite = false := by
  refine ⟨fun u => ?_, ?_, ?_, ?_, ?_, ?_, ?_, ?_, ?_⟩ <;>
    simp [updateTextChatACLs, roleRead_grantProfileReads, roleWrite_grantProfileReads,
      publicRead_grantProfileReads, publicWrite_grantProfileReads,
      userRead_grantProfileReads, ACL.new, ACL.setPublicRead, ACL.setPublicWrite,
      ACL.grantRoleRead, ACL.grantRoleWrite]

lemma find?_fst_map_set (rs : List (String × List String)) (k : String) (v : List String) :
    ((rs.map fun kv => if kv.1 = k then (k, v) else kv).find? (·.1 = k))
      = ((rs.find? (·.1 = k)).map fun _ => (k, v)) := by
  induction rs with
  | nil => rfl
  | cons a as ih =>
    by_cases ha : a.1 = k
    · simp [List.find?_cons, ha]
    · simp [List.find?_cons, ha, ih]

lemma find?_fst_map_set_other (rs : List (String × List String)) (k : String)
    (v : List String) (k' : String) (hk : k' ≠ k) :
    ((rs.map fun kv => if kv.1 = k then (k, v) else kv).find? (·.1 = k'))
      = rs.find? (·.1 = k') := by
  induction rs with
  | nil => rfl
  | cons a as ih =>
    rw [List.map_cons]
    by_cases ha : a.1 = k
    · rw [if_pos ha]
      have h1 : ¬ (k = k') := fun h => hk h.symm
      have h2 : ¬ (a.1 = k') := fun h => h1 (ha.symm.trans h)
      rw [List.find?_cons_of_neg _ (by simpa using h1), ih,
        List.find?_cons_of_neg _ (by simpa using h2)]
    · rw [if_neg ha]
      by_cases hb : a.1 = k'
      · rw [List.find?_cons_of_pos _ (by simpa using hb),
          List.find?_cons_of_pos _ (by simpa using hb)]
      · rw [List.find?_cons_of_neg _ (by simpa using hb), ih,
          List.find?_cons_of_neg _ (by simpa using hb)]

lemma lookupReaction_setReaction_self (rs : List (String × List String)) (k : String)
    (v : List String) :
    lookupReaction (setReaction rs k v) k = some v := by
  unfold setReaction lookupReaction
  by_cases h : (rs.find? (·.1 = k)).isSome
  · rw [if_pos h, find?_fst_map_set]
    cases hf : rs.find? (·.1 = k) with
    | none => rw [hf] at h; simp at h
    | some a => simp
  · rw [if_neg h, List.find?_append]
    rw [Option.not_isSome_iff_eq_none] at h
    rw [h]
    simp [List.find?]

lemma lookupReaction_setReaction_other (rs : List (String × List String)) (k : String)
    (v : List String) (k' : String) (hk : k' ≠ k) :
    lookupReaction (setReaction rs k v) k' = lookupReaction rs k' := by
  unfold setReaction lookupReaction
  by_cases h : (rs.find? (·.1 = k)).isSome
  · rw [if_pos h, find?_fst_map_set_other rs k v k' hk]
  · rw [if_neg h, List.find?_append]
    have h1 : ¬ (k = k') := fun h => hk h.symm
    simp [List.find?, h1]

lemma lookupReaction_deleteReaction_self (rs : List (String × List String)) (k : String) :
    lookupReaction (deleteReaction rs k) k = none := by
  unfold deleteReaction lookupReaction
  have : (rs.filter fun kv => kv.1 ≠ k).find? (·.1 = k) = none := by
    rw [List.find?_eq_none]
    intro x hx
    rw [List.mem_filter] at hx
    simpa using hx.2
  rw [this]
  rfl

lemma lookupReaction_deleteReaction_other (rs : List (String × List String)) (k k' : String)
    (hk : k' ≠ k) :
    lookupReaction (deleteReaction rs k) k' = lookupReaction rs k' := by
  unfold deleteReaction lookupReaction
  congr 1
  induction rs with
  | nil => rfl
  | cons a as ih =>
    rw [List.filter_cons]
    by_cases ha : a.1 = k
    · have h1 : ¬ (a.1 ≠ k) := fun h => h ha
      rw [if_neg (by simpa using h1)]
      have h2 : ¬ (a.1 = k') := fun h => hk (h.symm.trans ha)
      rw [ih, List.find?_cons_of_neg _ (by simpa using h2)]
    · rw [if_pos (by simpa using ha)]
      by_cases hb : a.1 = k'
      · rw [List.find?_cons_of_pos _ (by simpa using hb),
          List.find?_cons_of_pos _ (by simpa using hb)]
      · rw [List.find?_cons_of_neg _ (by simpa using hb), ih,
          List.find?_cons_of_neg _ (by simpa using hb)]

/-- The fixed service state used to exercise the reaction handlers: one
channel `CH1` whose sole member is the acting user, holding one message
`IM1` with the given attribute bag. -/
def reactState (userId : String) (attrs : MessageAttrs) : ServiceState :=
  { channels := [{ sid := "CH1", uniqueName := "general", friendlyName := "General",
                   createdBy := "system", type := "public", isDM := false,
                   members := [⟨userId, .chanUser⟩], invites := [],
                   messages := [⟨"IM1", attrs⟩] }],
    users := [userId], textChats := [] }

lemma updateMessage_reactState (uid : String) (attrs a1 : MessageAttrs) :
    (reactState uid attrs).updateMessage "CH1" "IM1" a1 = reactState uid a1 := by
  simp [reactState, ServiceState.updateMessage]

lemma handleAddReaction_reactState (p : Profile) (attrs : MessageAttrs) (reaction : String)
    (hr : reaction ≠ "") :
    handleAddReaction (reactState p.id attrs) p "CH1" "IM1" reaction
      = match addReactionToAttrs attrs p.id reaction with
        | none => (.okTrue, reactState p.id attrs)
        | some a1 => (.okTrue, reactState p.id a1) := by
  unfold handleAddReaction
  rw [if_neg (by decide), if_neg (by decide), if_neg hr]
  cases h : addReactionToAttrs attrs p.id reaction with
  | none => simp [reactState, ServiceState.findChannel, List.find?, h]
  | some a1 =>
    simp [reactState, ServiceState.findChannel, List.find?, h, ServiceState.updateMessage]

lemma handleRemoveReaction_reactState (p : Profile) (attrs : MessageAttrs) (reaction : String)
    (hr : reaction ≠ "") :
    handleRemoveReaction (reactState p.id attrs) p "CH1" "IM1" reaction
      = match removeReactionFromAttrs attrs p.id reaction with
        | none => (.okTrue, reactState p.id attrs)
        | some a1 => (.okTrue, reactState p.id a1) := by
  unfold handleRemoveReaction
  rw [if_neg (by decide), if_neg (by decide), if_neg hr]
  cases h : removeReactionFromAttrs attrs p.id reaction with
  | none => simp [reactState, ServiceState.findChannel, List.find?, h]
  | some a1 =>
    simp [reactState, ServiceState.findChannel, List.find?, h, ServiceState.updateMessage]

/-- **C8**: an `inviteToChat` request that passes validation and targets a
channel whose attribute bag marks `isDM: true` is answered 400 and performs
no membership, invitation or mirror-record mutation — the returned state is
the input state — with no assumption about the requester's membership of
the channel. -/
theorem c8_invite_to_dm_rejected (env : Env) (st : ServiceState) (p : Profile)
    (targets : List JVal) (channelSID : String) (c : Channel)
    (hsid : channelSID ≠ "")
    (hstr : targets.all (fun v => match v with | .jstr _ => true | _ => false) = true)
    (hne : ((targets.filterMap fun v => match v with | .jstr s => some s | _ => none).filter
        (· ≠ p.id)).length ≠ 0)
    (hres : (((targets.filterMap fun v => match v with | .jstr s => some s | _ => none).filter
        (· ≠ p.id)).map (getUserProfileByID env)).all Option.isSome = true)
    (hfind : st.findChannel channelSID = some c)
    (hdm : c.isDM = true) :
    handleInviteToChat env st p ⟨some targets, some channelSID⟩
      = (.badRequest "Cannot invite more users to a DM chat.", st) := by
  unfold handleInviteToChat
  dsimp only
  rw [if_neg hsid, if_neg (not_not_intro hstr), if_neg hne, if_neg (not_not_intro hres),
    hfind]
  dsimp only
  rw [if_neg (not_not_intro hdm)]

/-- Environment for the C8 witness scenario. -/
def c8Env : Env :=
  { conf := "conf1", profiles := [⟨"carol", "Carol", "uC"⟩], managerUserIds := [],
    fails := fun _ => false, uuid := "u",
    freshChannelSid := "CH1", freshTextChatId := "TC1" }

/-- An existing DM channel between alice and bob. -/
def c8Channel : Channel :=
  { sid := "CHD", uniqueName := "alice-bob", friendlyName := "alice-bob",
    createdBy := "system", type := "private", isDM := true,
    members := [⟨"alice", .chanUser⟩], invites := [⟨"bob", .chanUser⟩], messages := [] }

/-- Service state for the C8 witness scenario. -/
def c8State : ServiceState := ⟨[c8Channel], [], []⟩

/-- Witness for C8: alice (a member) inviting carol to the DM is rejected
with 400 and the state is untouched. -/
theorem c8_invite_to_dm_rejected_witness :
    handleInviteToChat c8Env c8State ⟨"alice", "Alice", "uA"⟩
        ⟨some [.jstr "carol"], some "CHD"⟩
      = (.badRequest "Cannot invite more users to a DM chat.", c8State) :=
  c8_invite_to_dm_rejected c8Env c8State ⟨"alice", "Alice", "uA"⟩ [.jstr "carol"] "CHD"
    c8Channel (by decide) (by decide) (by decide) (by decide) (by decide) (by decide)

lemma addReaction_none (attrs : MessageAttrs) (uid reaction : String)
    (hmem : uid ∈ (lookupReaction attrs.reactions reaction).getD []) :
    addReactionToAttrs attrs uid reaction = none := by
  simp only [addReactionToAttrs]
  rw [if_pos hmem]

lemma addReaction_result (attrs : MessageAttrs) (uid reaction : String)
    (hmem : uid ∉ (lookupReaction attrs.reactions reaction).getD []) :
    addReactionToAttrs attrs uid reaction
      = some { attrs with reactions := (setReaction attrs.reactions reaction
          (((lookupReaction attrs.reactions reaction).getD []) ++ [uid])) } := by
  simp only [addReactionToAttrs]
  rw [if_neg hmem]

lemma removeReaction_none (attrs : MessageAttrs) (uid reaction : String)
    (hmem : uid ∉ (lookupReaction attrs.reactions reaction).getD []) :
    removeReactionFromAttrs attrs uid reaction = none := by
  simp only [removeReactionFromAttrs]
  rw [if_neg hmem]

lemma removeReaction_result (attrs : MessageAttrs) (uid reaction : String)
    (hmem : uid ∈ (lookupReaction attrs.reactions reaction).getD []) :
    ∃ a3, removeReactionFromAttrs attrs uid reaction = some a3
      ∧ a3.others = attrs.others
      ∧ uid ∉ (lookupReaction a3.reactions reaction).getD []
      ∧ (∀ l, lookupReaction a3.reactions reaction = some l → l ≠ []) := by
  simp only [removeReactionFromAttrs]
  rw [if_pos hmem]
  refine ⟨_, rfl, rfl, ?_, ?_⟩
  · by_cases hlen : (((lookupReaction attrs.reactions reaction).getD []).filter
        (· ≠ uid)).length = 0
    · rw [if_pos hlen, lookupReaction_deleteReaction_self]
      simp
    · rw [if_neg hlen, lookupReaction_setReaction_self]
      intro hin
      rw [Option.getD_some] at hin
      rw [List.mem_filter] at hin
      simpa using hin.2
  · intro l hl
    by_cases hlen : (((lookupReaction attrs.reactions reaction).getD []).filter
        (· ≠ uid)).length = 0
    · rw [if_pos hlen, lookupReaction_deleteReaction_self] at hl
      exact absurd hl (by simp)
    · rw [if_neg hlen, lookupReaction_setReaction_self] at hl
      cases hl
      intro hnil
      exact hlen (by rw [hnil]; rfl)

/-- **C9**: for a channel member, adding the same reaction twice leaves the
user in that reaction's user list exactly once and the second call changes
nothing; removing it then deletes the user, and the reaction key disappears
entirely when its user list becomes empty (any surviving key is non-empty).
The hypothesis that the user occurs at most once initially reflects that
the list is only ever built by these handlers. -/
theorem c9_reaction_idempotence (p : Profile) (attrs : MessageAttrs) (reaction : String)
    (hr : reaction ≠ "")
    (hcount : ((lookupReaction attrs.reactions reaction).getD []).count p.id ≤ 1) :
    ∃ a1 a3 : MessageAttrs,
      handleAddReaction (reactState p.id attrs) p "CH1" "IM1" reaction
        = (.okTrue, reactState p.id a1)
      ∧ ((lookupReaction a1.reactions reaction).getD []).count p.id = 1
      ∧ handleAddReaction (reactState p.id a1) p "CH1" "IM1" reaction
        = (.okTrue, reactState p.id a1)
      ∧ handleRemoveReaction (reactState p.id a1) p "CH1" "IM1" reaction
        = (.okTrue, reactState p.id a3)
      ∧ p.id ∉ (lookupReaction a3.reactions reaction).getD []
      ∧ (∀ l, lookupReaction a3.reactions reaction = some l → l ≠ []) := by
  by_cases hmem : p.id ∈ (lookupReaction attrs.reactions reaction).getD []
  · have hadd := addReaction_none attrs p.id reaction hmem
    obtain ⟨a3, hrem, _, hnotin, hkey⟩ := removeReaction_result attrs p.id reaction hmem
    refine ⟨attrs, a3, ?_, ?_, ?_, ?_, hnotin, hkey⟩
    · rw [handleAddReaction_reactState p attrs reaction hr, hadd]
    · exact Nat.le_antisymm hcount (List.count_pos_iff.mpr hmem)
    · rw [handleAddReaction_reactState p attrs reaction hr, hadd]
    · rw [handleRemoveReaction_reactState p attrs reaction hr, hrem]
  · have hadd0 := addReaction_result attrs p.id reaction hmem
    obtain ⟨a1, ha1, hadd⟩ : ∃ a1 : MessageAttrs, a1.reactions
          = setReaction attrs.reactions reaction
            (((lookupReaction attrs.reactions reaction).getD []) ++ [p.id])
          ∧ addReactionToAttrs attrs p.id reaction = some a1 := ⟨_, rfl, hadd0⟩
    have hlook1 : lookupReaction a1.reactions reaction
        = some (((lookupReaction attrs.reactions reaction).getD []) ++ [p.id]) := by
      rw [ha1]
      exact lookupReaction_setReaction_self _ _ _
    have hmem1 : p.id ∈ (lookupReaction a1.reactions reaction).getD [] := by
      rw [hlook1]
      simp
    have hadd2 := addReaction_none a1 p.id reaction hmem1
    obtain ⟨a3, hrem, _, hnotin, hkey⟩ := removeReaction_result a1 p.id reaction hmem1
    refine ⟨a1, a3, ?_, ?_, ?_, ?_, hnotin, hkey⟩
    · rw [handleAddReaction_reactState p attrs reaction hr, hadd]
    · rw [hlook1]
      simp [List.count_append, List.count_eq_zero.mpr hmem]
    · rw [handleAddReaction_reactState p a1 reaction hr, hadd2]
    · rw [handleRemoveReaction_reactState p a1 reaction hr, hrem]

/-- Concrete acting user for the reaction witnesses. -/
def reactDemoProfile : Profile := ⟨"alice", "Alice", "uA"⟩

/-- Concrete message attribute bag for the reaction witnesses: `alice` has
already reacted `like`, and an unrelated top-level key is present. -/
def reactDemoAttrs : MessageAttrs := ⟨[("like", ["alice"])], [("origin", "web")]⟩

/-- Witness for C9 at a concrete input. -/
theorem c9_reaction_idempotence_witness :
    ∃ a1 a3 : MessageAttrs,
      handleAddReaction (reactState reactDemoProfile.id reactDemoAttrs) reactDemoProfile
          "CH1" "IM1" "like"
        = (.okTrue, reactState reactDemoProfile.id a1)
      ∧ ((lookupReaction a1.reactions "like").getD []).count reactDemoProfile.id = 1
      ∧ handleAddReaction (reactState reactDemoProfile.id a1) reactDemoProfile
          "CH1" "IM1" "like"
        = (.okTrue, reactState reactDemoProfile.id a1)
      ∧ handleRemoveReaction (reactState reactDemoProfile.id a1) reactDemoProfile
          "CH1" "IM1" "like"
        = (.okTrue, reactState reactDemoProfile.id a3)
      ∧ reactDemoProfile.id ∉ (lookupReaction a3.reactions "like").getD []
      ∧ (∀ l, lookupReaction a3.reactions "like" = some l → l ≠ []) :=
  c9_reaction_idempotence reactDemoProfile reactDemoAttrs "like" (by decide) (by decide)

/-- **C10**: the reaction handlers only touch the named reaction's user list:
whenever an update is computed, every other top-level attribute key and every
other reaction's user list are unchanged; and when the user is already
present (add) or already absent (remove) no message update is computed at
all while the handler still answers `ok: true` with the state untouched. -/
theorem c10_reaction_frame (p : Profile) (attrs : MessageAttrs) (reaction : String)
    (hr : reaction ≠ "") :
    (∀ a1, addReactionToAttrs attrs p.id reaction = some a1 →
        a1.others = attrs.others
        ∧ ∀ k, k ≠ reaction → lookupReaction a1.reactions k = lookupReaction attrs.reactions k)
    ∧ (∀ a3, removeReactionFromAttrs attrs p.id reaction = some a3 →
        a3.others = attrs.others
        ∧ ∀ k, k ≠ reaction → lookupReaction a3.reactions k = lookupReaction attrs.reactions k)
    ∧ (p.id ∈ (lookupReaction attrs.reactions reaction).getD [] →
        addReactionToAttrs attrs p.id reaction = none
        ∧ handleAddReaction (reactState p.id attrs) p "CH1" "IM1" reaction
            = (.okTrue, reactState p.id attrs))
    ∧ (p.id ∉ (lookupReaction attrs.reactions reaction).getD [] →
        removeReactionFromAttrs attrs p.id reaction = none
        ∧ handleRemoveReaction (reactState p.id attrs) p "CH1" "IM1" reaction
            = (.okTrue, reactState p.id attrs)) := by
  refine ⟨?_, ?_, ?_, ?_⟩
  · intro a1 h
    by_cases hmem : p.id ∈ (lookupReaction attrs.reactions reaction).getD []
    · rw [addReaction_none attrs p.id reaction hmem] at h
      exact absurd h (by simp)
    · rw [addReaction_result attrs p.id reaction hmem] at h
      injection h with h
      subst h
      exact ⟨rfl, fun k hk => lookupReaction_setReaction_other _ _ _ _ hk⟩
  · intro a3 h
    by_cases hmem : p.id ∈ (lookupReaction attrs.reactions reaction).getD []
    · simp only [removeReactionFromAttrs] at h
      rw [if_pos hmem] at h
      injection h with h
      subst h
      refine ⟨rfl, fun k hk => ?_⟩
      dsimp only
      by_cases hlen : (((lookupReaction attrs.reactions reaction).getD []).filter
          (· ≠ p.id)).length = 0
      · rw [if_pos hlen, lookupReaction_deleteReaction_other _ _ _ hk,
          lookupReaction_setReaction_other _ _ _ _ hk]
      · rw [if_neg hlen, lookupReaction_setReaction_other _ _ _ _ hk]
    · rw [removeReaction_none attrs p.id reaction hmem] at h
      exact absurd h (by simp)
  · intro hmem
    refine ⟨addReaction_none attrs p.id reaction hmem, ?_⟩
    rw [handleAddReaction_reactState p attrs reaction hr,
      addReaction_none attrs p.id reaction hmem]
  · intro hmem
    refine ⟨removeReaction_none attrs p.id reaction hmem, ?_⟩
    rw [handleRemoveReaction_reactState p attrs reaction hr,
      removeReaction_none attrs p.id reaction hmem]

/-- Witness for C10 at a concrete input. -/
theorem c10_reaction_frame_witness :
    (∀ a1, addReactionToAttrs reactDemoAttrs reactDemoProfile.id "like" = some a1 →
        a1.others = reactDemoAttrs.others
        ∧ ∀ k, k ≠ "like" →
            lookupReaction a1.reactions k = lookupReaction reactDemoAttrs.reactions k)
    ∧ (∀ a3, removeReactionFromAttrs reactDemoAttrs reactDemoProfile.id "like" = some a3 →
        a3.others = reactDemoAttrs.others
        ∧ ∀ k, k ≠ "like" →
            lookupReaction a3.reactions k = lookupReaction reactDemoAttrs.reactions k)
    ∧ (reactDemoProfile.id ∈ (lookupReaction reactDemoAttrs.reactions "like").getD [] →
        addReactionToAttrs reactDemoAttrs reactDemoProfile.id "like" = none
        ∧ handleAddReaction (reactState reactDemoProfile.id reactDemoAttrs) reactDemoProfile
            "CH1" "IM1" "like"
          = (.okTrue, reactState reactDemoProfile.id reactDemoAttrs))
    ∧ (reactDemoProfile.id ∉ (lookupReaction reactDemoAttrs.reactions "like").getD [] →
        removeReactionFromAttrs reactDemoAttrs reactDemoProfile.id "like" = none
        ∧ handleRemoveReaction (reactState reactDemoProfile.id reactDemoAttrs) reactDemoProfile
            "CH1" "IM1" "like"
          = (.okTrue, reactState reactDemoProfile.id reactDemoAttrs)) :=
  c10_reaction_frame reactDemoProfile reactDemoAttrs "like" (by decide)

/-! ## Supporting lemmas for the channel-provisioning claims -/

lemma find?_append_of_none {α : Type} (p : α → Bool) {l₁ : List α} (l₂ : List α)
    (h : l₁.find? p = none) : (l₁ ++ l₂).find? p = l₂.find? p := by
  rw [List.find?_append, h, Option.none_or]

lemma map_update_sid_eq_self (f : Channel → Channel) (l : List Channel) (s : String)
    (h : ∀ c ∈ l, c.sid ≠ s) :
    (l.map fun c => if c.sid = s then f c else c) = l := by
  induction l with
  | nil => rfl
  | cons a as ih =>
    rw [List.map_cons, if_neg (h a (List.mem_cons_self a as)),
      ih fun x hx => h x (List.mem_cons_of_mem a hx)]

lemma map_update_tc_eq_self (tc : TextChat) (l : List TextChat) (i : String)
    (h : ∀ t ∈ l, t.id ≠ i) :
    (l.map fun t => if t.id = i then tc else t) = l := by
  induction l with
  | nil => rfl
  | cons a as ih =>
    rw [List.map_cons, if_neg (h a (List.mem_cons_self a as)),
      ih fun x hx => h x (List.mem_cons_of_mem a hx)]

lemma ensureUsersLoop_noFail (env : Env) (pre : List String) (ps : List Profile)
    (h : ∀ p ∈ ps, env.fails (.userCreate p.id) = false) :
    ∀ s : ServiceState, ∃ u : List String,
      ensureUsersLoop env pre ps s = .ok { s with users := u } := by
  induction ps with
  | nil => exact fun s => ⟨s.users, rfl⟩
  | cons p ps ih =>
    intro s
    unfold ensureUsersLoop
    by_cases hpre : p.id ∈ pre
    · rw [if_pos hpre]
      exact ih (fun q hq => h q (List.mem_cons_of_mem p hq)) s
    · rw [if_neg hpre, h p (List.mem_cons_self p ps)]
      obtain ⟨u, hu⟩ := ih (fun q hq => h q (List.mem_cons_of_mem p hq))
        { s with users := s.users ++ [p.id] }
      exact ⟨u, by rw [if_neg (by simp)]; exact hu⟩

lemma all_jstr_map (ps : List Profile) :
    ((ps.map fun p => JVal.jstr p.id).all fun v =>
      match v with | .jstr _ => true | _ => false) = true := by
  induction ps with
  | nil => rfl
  | cons p ps ih => simp only [List.map_cons, List.all_cons, ih, Bool.and_true]

lemma filterMap_jstr_map (ps : List Profile) :
    ((ps.map fun p => JVal.jstr p.id).filterMap fun v =>
      match v with | .jstr s => some s | _ => none) = ps.map (·.id) := by
  induction ps with
  | nil => rfl
  | cons p ps ih => simp only [List.map_cons, List.filterMap_cons, ih]

/-- Validation and profile resolution in `handleCreateChat`: a request with a
present, all-string invite list naming resolvable profiles distinct from the
requester, a well-formed mode and an already-trimmed title of length ≥ 5
reaches the channel-resolution stage unchanged. -/
lemma handleCreateChat_entry (env : Env) (st : ServiceState) (A : Profile)
    (ps : List Profile) (mode title : String) (fvr : Bool)
    (hmode : mode = "public" ∨ mode = "private")
    (ht : strTrim title = title) (h5 : ¬ strLength title < 5) (hne : title ≠ "")
    (hps : ∀ p ∈ ps, getUserProfileByID env p.id = some p)
    (hself : ∀ p ∈ ps, p.id ≠ A.id) :
    handleCreateChat env st A
        ⟨some (ps.map fun p => JVal.jstr p.id), some mode, some title, fvr⟩
      = handleCreateChatResolved env st A mode title ps fvr := by
  have hmode0 : mode ≠ "" := by rcases hmode with rfl | rfl <;> decide
  unfold handleCreateChat
  dsimp only [Option.map]
  simp only [ht]
  rw [if_neg (by exact fun hor => hor.elim hne hmode0),
    if_neg (not_not_intro (all_jstr_map ps)), filterMap_jstr_map]
  have hfilter : (ps.map (·.id)).filter (· ≠ A.id) = ps.map (·.id) := by
    rw [List.filter_eq_self]
    intro x hx
    obtain ⟨p, hp, rfl⟩ := List.mem_map.mp hx
    simpa using hself p hp
  rw [hfilter,
    if_neg (by rcases hmode with rfl | rfl
               · exact fun hcon => hcon.1 rfl
               · exact fun hcon => hcon.2 rfl),
    if_neg h5]
  have hprofs : (ps.map (·.id)).map (getUserProfileByID env) = ps.map some := by
    rw [List.map_map]
    exact List.map_congr_left fun p hp => hps p hp
  rw [hprofs]
  have hall : ((ps.map some).all Option.isSome) = true := by
    simp [List.all_eq_true]
  rw [if_neg (not_not_intro hall)]
  congr 1
  rw [List.filterMap_map]
  simp

lemma lexLt_asymm : ∀ (a b : List Char), lexLt a b = true → lexLt b a = false
  | [], [], h => by simp [lexLt] at h
  | [], _ :: _, _ => by simp [lexLt]
  | _ :: _, [], h => by simp [lexLt] at h
  | a :: as, b :: bs, h => by
    simp only [lexLt] at h ⊢
    by_cases h1 : a.toNat < b.toNat
    · simp [h1, Nat.lt_asymm h1]
    · by_cases h2 : b.toNat < a.toNat
      · simp [h1, h2] at h
      · simp only [h1, h2, if_false] at h ⊢
        exact lexLt_asymm as bs h

lemma charToNat_inj {a b : Char} (h : a.toNat = b.toNat) : a = b :=
  Char.ext (UInt32.ext h)

lemma lexLt_conn : ∀ (a b : List Char), lexLt a b = false → lexLt b a = false → a = b
  | [], [], _, _ => rfl
  | [], _ :: _, h, _ => by simp [lexLt] at h
  | _ :: _, [], _, h => by simp [lexLt] at h
  | a :: as, b :: bs, h, h' => by
    simp only [lexLt] at h h'
    by_cases h1 : a.toNat < b.toNat
    · simp [h1] at h
    · by_cases h2 : b.toNat < a.toNat
      · simp [h1, h2] at h'
      · simp only [h1, h2, if_false] at h h'
        have hab : a = b :=
          charToNat_inj (Nat.le_antisymm (Nat.le_of_not_lt h2) (Nat.le_of_not_lt h1))
        rw [hab, lexLt_conn as bs h h']

/-- The DM unique key is symmetric in the two participants. -/
lemma dmUniqueName_comm (a b : String) : dmUniqueName a b = dmUniqueName b a := by
  unfold dmUniqueName strLt
  by_cases h1 : lexLt a.data b.data = true
  · rw [if_pos h1, if_neg (by rw [lexLt_asymm a.data b.data h1]; simp)]
  · by_cases h2 : lexLt b.data a.data = true
    · rw [if_neg (by simpa using h1), if_pos h2]
    · have hab : a = b := by
        have hd := lexLt_conn a.data b.data (by simpa using h1) (by simpa using h2)
        cases a
        cases b
        exact congrArg String.mk hd
      rw [hab]

/-- The channel created by a successful DM `createChat` run for requester `A`
and invitee `B`, after membership reconciliation. -/
def dmChannel (env : Env) (A B : Profile) : Channel :=
  { sid := env.freshChannelSid, uniqueName := dmUniqueName A.id B.id,
    friendlyName := dmUniqueName A.id B.id, createdBy := "system",
    type := "private", isDM := true,
    members := [⟨A.id, requesterMemberRole env true A⟩],
    invites := [⟨B.id, inviteeRole env B⟩], messages := [] }

/-- The mirror record written by that run, with its rebuilt private ACL. -/
def dmTextChat (env : Env) (A B : Profile) : TextChat :=
  { id := env.freshTextChatId, conference := env.conf,
    twilioID := env.freshChannelSid, autoWatch := true, mirrored := false,
    name := dmUniqueName A.id B.id,
    acl := grantProfileReads env [A.id, B.id]
      ((((((ACL.new.setPublicRead false).setPublicWrite false).grantRoleRead
        "manager").grantRoleWrite "manager").grantRoleRead "admin").grantRoleWrite "admin") }

/-- The service state after a successful DM `createChat` run from state `st`:
the new channel and its mirror record are appended; `u` is the service-user
list after `ensureTwilioUsersExist`. -/
def run1State (env : Env) (st : ServiceState) (A B : Profile) (u : List String) :
    ServiceState :=
  { channels := st.channels ++ [dmChannel env A B],
    users := u,
    textChats := st.textChats ++ [dmTextChat env A B] }

lemma addMember_append (stc : List Channel) (u : List String) (tcs : List TextChat)
    (c : Channel) (s : String) (m : Participant)
    (hcs : c.sid = s) (hs : ∀ c' ∈ stc, c'.sid ≠ s) :
    ServiceState.addMember ⟨stc ++ [c], u, tcs⟩ s m
      = ⟨stc ++ [{ c with members := c.members ++ [m] }], u, tcs⟩ := by
  unfold ServiceState.addMember
  dsimp only
  rw [List.map_append, map_update_sid_eq_self _ _ _ hs, List.map_cons, List.map_nil,
    if_pos hcs]

lemma addInvite_append (stc : List Channel) (u : List String) (tcs : List TextChat)
    (c : Channel) (s : String) (m : Participant)
    (hcs : c.sid = s) (hs : ∀ c' ∈ stc, c'.sid ≠ s) :
    ServiceState.addInvite ⟨stc ++ [c], u, tcs⟩ s m
      = ⟨stc ++ [{ c with invites := c.invites ++ [m] }], u, tcs⟩ := by
  unfold ServiceState.addInvite
  dsimp only
  rw [List.map_append, map_update_sid_eq_self _ _ _ hs, List.map_cons, List.map_nil,
    if_pos hcs]

lemma findChannel_append (stc : List Channel) (u : List String) (tcs : List TextChat)
    (c : Channel) (s : String) (hcs : c.sid = s) (hs : ∀ c' ∈ stc, c'.sid ≠ s) :
    ServiceState.findChannel ⟨stc ++ [c], u, tcs⟩ s = some c := by
  unfold ServiceState.findChannel
  dsimp only
  rw [find?_append_of_none _ _ (List.find?_eq_none.mpr fun x hx => by
    simpa using hs x hx)]
  simp [List.find?, hcs]

/-- The mirror record freshly created by `getOrCreateTextChat` when none
matches the composite key. -/
def freshTextChatFor (env : Env) (c : Channel) (dm : Bool) : TextChat :=
  { id := env.freshTextChatId, conference := env.conf, twilioID := c.sid,
    autoWatch := dm, mirrored := false, name := c.friendlyName, acl := ACL.new }

lemma getOrCreateTextChat_fresh (env : Env) (stc : List Channel) (u : List String)
    (tcs : List TextChat) (c : Channel) (dm : Bool)
    (h : ∀ tc ∈ tcs, tc.twilioID ≠ c.sid) :
    getOrCreateTextChat env ⟨stc, u, tcs⟩ c dm
      = (freshTextChatFor env c dm, ⟨stc, u, tcs ++ [freshTextChatFor env c dm]⟩) := by
  unfold getOrCreateTextChat freshTextChatFor
  dsimp only
  rw [List.find?_eq_none.mpr fun tc htc => by
    simp only [Bool.and_eq_true, decide_eq_true_eq, not_and]
    exact fun _ hw => h tc htc hw]

lemma getOrCreateTextChat_found_last (env : Env) (stc : List Channel) (u : List String)
    (tcs : List TextChat) (c : Channel) (tc : TextChat) (dm : Bool)
    (h : ∀ t ∈ tcs, t.twilioID ≠ c.sid)
    (hc : tc.conference = env.conf) (hw : tc.twilioID = c.sid) :
    getOrCreateTextChat env ⟨stc, u, tcs ++ [tc]⟩ c dm = (tc, ⟨stc, u, tcs ++ [tc]⟩) := by
  unfold getOrCreateTextChat
  dsimp only
  rw [find?_append_of_none _ _ (List.find?_eq_none.mpr fun t ht => by
    simp only [Bool.and_eq_true, decide_eq_true_eq, not_and]
    exact fun _ hw' => h t ht hw')]
  simp [List.find?, hc, hw]

lemma updateTextChatACLs_private (env : Env) (c : Channel) (tc : TextChat) :
    updateTextChatACLs env c tc (some true)
      = { tc with acl := (grantProfileReads env
          (c.members.map (·.identity) ++ c.invites.map (·.identity))
          ((((((ACL.new.setPublicRead false).setPublicWrite false).grantRoleRead
            "manager").grantRoleWrite "manager").grantRoleRead
            "admin").grantRoleWrite "admin")) } := rfl

lemma saveTextChat_append (stc : List Channel) (u : List String) (tcs : List TextChat)
    (tc0 tc1 : TextChat) (h : ∀ t ∈ tcs, t.id ≠ tc1.id) (hid : tc0.id = tc1.id) :
    ServiceState.saveTextChat ⟨stc, u, tcs ++ [tc0]⟩ tc1 = ⟨stc, u, tcs ++ [tc1]⟩ := by
  unfold ServiceState.saveTextChat
  dsimp only
  rw [List.map_append, map_update_tc_eq_self _ _ _ h, List.map_cons, List.map_nil,
    if_pos hid]

lemma createInvitesFresh_singleton (env : Env) (sid : String) (p : Profile)
    (s : ServiceState) (h : env.fails (.inviteCreate p.id) = false) :
    createInvitesFresh env sid [p] s = .ok (s.addInvite sid ⟨p.id, inviteeRole env p⟩) := by
  unfold createInvitesFresh
  rw [h]
  simp only [Bool.false_eq_true, if_false]
  rfl

lemma createInvitesExisting_skip (env : Env) (sid : String) (members invites : List String)
    (p : Profile) (s : ServiceState) (h : p.id ∈ members ∨ p.id ∈ invites) :
    createInvitesExisting env sid members invites [p] s = .ok s := by
  unfold createInvitesExisting
  rw [if_pos (by simpa using h)]
  rfl

lemma createChat_dm_run1 (env : Env) (st : ServiceState) (A B : Profile) (title : String)
    (hkey : ∀ c ∈ st.channels, c.uniqueName ≠ dmUniqueName A.id B.id)
    (hsid : ∀ c ∈ st.channels, c.sid ≠ env.freshChannelSid)
    (htcw : ∀ tc ∈ st.textChats, tc.twilioID ≠ env.freshChannelSid)
    (htci : ∀ tc ∈ st.textChats, tc.id ≠ env.freshTextChatId)
    (hfail : ∀ k, env.fails k = false) :
    ∃ u : List String,
      handleCreateChatResolved env st A "private" title [B] false
        = (.ok env.freshChannelSid env.freshTextChatId, run1State env st A B u) := by
  unfold handleCreateChatResolved
  dsimp only
  simp only [beq_self_eq_true, List.length_cons, List.length_nil, Nat.zero_add,
    Bool.not_false, Bool.and_self, Bool.and_true, Bool.true_and, List.head?_cons,
    if_true, reduceIte]
  rw [List.filter_eq_nil_iff.mpr (fun c hc => by simpa using hkey c hc)]
  rw [hfail MutKind.channelCreate]
  simp only [Bool.false_eq_true, if_false]
  obtain ⟨u, hu⟩ := ensureUsersLoop_noFail env st.users ([B] ++ [A])
    (fun p _ => hfail _)
    ⟨st.channels ++
      [{ sid := env.freshChannelSid, uniqueName := dmUniqueName A.id B.id,
         friendlyName := dmUniqueName A.id B.id, createdBy := "system", type := "private",
         isDM := true, members := [], invites := [], messages := [] }],
      st.users, st.textChats⟩
  rw [hu]
  dsimp only
  rw [hfail (MutKind.memberCreate A.id)]
  simp only [Bool.false_eq_true, if_false]
  rw [addMember_append _ _ _ _ _ _ rfl hsid]
  rw [createInvitesFresh_singleton env env.freshChannelSid B _ (hfail _)]
  dsimp only
  rw [addInvite_append _ _ _ _ _ _ rfl hsid]
  unfold finishCreateChat
  rw [findChannel_append _ _ _ _ _ rfl hsid]
  dsimp only
  rw [getOrCreateTextChat_fresh env _ _ _ _ _ (fun tc htc => by simpa using htcw tc htc)]
  dsimp only
  rw [updateTextChatACLs_private]
  rw [saveTextChat_append _ _ _ _ _ (fun t ht => by simpa using htci t ht) (by rfl)]
  exact ⟨u, rfl⟩

lemma createChat_dm_run2_same (env : Env) (st : ServiceState) (A B : Profile)
    (title : String) (u : List String)
    (hkey : ∀ c ∈ st.channels, c.uniqueName ≠ dmUniqueName A.id B.id)
    (hsid : ∀ c ∈ st.channels, c.sid ≠ env.freshChannelSid)
    (htcw : ∀ tc ∈ st.textChats, tc.twilioID ≠ env.freshChannelSid)
    (htci : ∀ tc ∈ st.textChats, tc.id ≠ env.freshTextChatId) :
    handleCreateChatResolved env (run1State env st A B u) A "private" title [B] false
      = (.ok env.freshChannelSid env.freshTextChatId, run1State env st A B u) := by
  unfold handleCreateChatResolved run1State
  dsimp only
  simp only [beq_self_eq_true, List.length_cons, List.length_nil, Nat.zero_add,
    Bool.not_false, Bool.and_self, Bool.and_true, Bool.true_and, List.head?_cons,
    if_true, reduceIte]
  rw [List.filter_append,
    List.filter_eq_nil_iff.mpr (fun c hc => by simpa using hkey c hc)]
  rw [show (List.filter (fun x => decide (x.uniqueName = dmUniqueName A.id B.id))
      [dmChannel env A B]) = [dmChannel env A B] from by simp [dmChannel, List.filter]]
  dsimp only [List.nil_append]
  rw [if_pos (show A.id ∈ ((dmChannel env A B).members.map fun x => x.identity) from by
    simp [dmChannel])]
  dsimp only
  rw [createInvitesExisting_skip env (dmChannel env A B).sid
    ((dmChannel env A B).members.map fun x => x.identity)
    ((dmChannel env A B).invites.map fun x => x.identity) B _
    (Or.inr (by simp [dmChannel]))]
  dsimp only
  unfold finishCreateChat
  rw [findChannel_append _ _ _ (dmChannel env A B) _ rfl hsid]
  dsimp only
  rw [getOrCreateTextChat_found_last env _ _ _ (dmChannel env A B) (dmTextChat env A B) _
    (fun t ht h1 => htcw t ht h1) rfl rfl]
  dsimp only
  rw [updateTextChatACLs_private]
  rw [saveTextChat_append _ _ _ (dmTextChat env A B) _
    (fun t ht h1 => htci t ht h1) (by rfl)]
  rfl

/-- **C1**: creating the same DM twice (same requester `A`, same single
invitee `B`, mode `private`) creates exactly one channel: the first call
creates it and the second call resolves the same unique key to the existing
channel, answers with the same channel SID and mirror-record id, and leaves
the whole provider and mirror state untouched (no redundant membership or
invitation creation — `A` is already a member and `B` already invited). -/
theorem c1_dm_create_idempotent (env : Env) (st : ServiceState) (A B : Profile)
    (title : String)
    (hB : getUserProfileByID env B.id = some B)
    (hBA : B.id ≠ A.id)
    (ht : strTrim title = title) (h5 : ¬ strLength title < 5) (hne : title ≠ "")
    (hkey : ∀ c ∈ st.channels, c.uniqueName ≠ dmUniqueName A.id B.id)
    (hsid : ∀ c ∈ st.channels, c.sid ≠ env.freshChannelSid)
    (htcw : ∀ tc ∈ st.textChats, tc.twilioID ≠ env.freshChannelSid)
    (htci : ∀ tc ∈ st.textChats, tc.id ≠ env.freshTextChatId)
    (hfail : ∀ k, env.fails k = false) :
    ∃ s1 : ServiceState,
      handleCreateChat env st A ⟨some [JVal.jstr B.id], some "private", some title, false⟩
        = (.ok env.freshChannelSid env.freshTextChatId, s1)
      ∧ handleCreateChat env s1 A ⟨some [JVal.jstr B.id], some "private", some title, false⟩
        = (.ok env.freshChannelSid env.freshTextChatId, s1)
      ∧ s1.channels.length = st.channels.length + 1 := by
  have hps : ∀ p ∈ [B], getUserProfileByID env p.id = some p := by
    intro p hp
    rw [List.mem_singleton] at hp
    subst hp
    exact hB
  have hself : ∀ p ∈ [B], p.id ≠ A.id := by
    intro p hp
    rw [List.mem_singleton] at hp
    subst hp
    exact hBA
  obtain ⟨u, hrun1⟩ := createChat_dm_run1 env st A B title hkey hsid htcw htci hfail
  have hentry1 := handleCreateChat_entry env st A [B] "private" title false
    (Or.inr rfl) ht h5 hne hps hself
  have hentry2 := handleCreateChat_entry env (run1State env st A B u) A [B] "private"
    title false (Or.inr rfl) ht h5 hne hps hself
  simp only [List.map_cons, List.map_nil] at hentry1 hentry2
  refine ⟨run1State env st A B u, ?_, ?_, ?_⟩
  · rw [hentry1, hrun1]
  · rw [hentry2, createChat_dm_run2_same env st A B title u hkey hsid htcw htci]
  · simp [run1State]

/-- Environment for the C1 witness scenario. -/
def c1Env : Env :=
  { conf := "conf1", profiles := [⟨"bob", "Bob", "uB"⟩], managerUserIds := [],
    fails := fun _ => false, uuid := "uuid0001",
    freshChannelSid := "CH1", freshTextChatId := "TC1" }

/-- Witness for C1 at a concrete input. -/
theorem c1_dm_create_idempotent_witness :
    ∃ s1 : ServiceState,
      handleCreateChat c1Env ⟨[], [], []⟩ ⟨"alice", "Alice", "uA"⟩
          ⟨some [JVal.jstr "bob"], some "private", some "Hello there", false⟩
        = (.ok "CH1" "TC1", s1)
      ∧ handleCreateChat c1Env s1 ⟨"alice", "Alice", "uA"⟩
          ⟨some [JVal.jstr "bob"], some "private", some "Hello there", false⟩
        = (.ok "CH1" "TC1", s1)
      ∧ s1.channels.length = 0 + 1 :=
  c1_dm_create_idempotent c1Env ⟨[], [], []⟩ ⟨"alice", "Alice", "uA"⟩ ⟨"bob", "Bob", "uB"⟩
    "Hello there" (by decide) (by decide) (by decide) (by decide) (by decide)
    (by simp) (by simp) (by simp) (by simp) (fun k => rfl)

lemma createChat_dm_run2_swapped (env : Env) (st : ServiceState) (A B : Profile)
    (title : String) (u : List String)
    (hBA : B.id ≠ A.id)
    (hkey : ∀ c ∈ st.channels, c.uniqueName ≠ dmUniqueName A.id B.id)
    (hsid : ∀ c ∈ st.channels, c.sid ≠ env.freshChannelSid)
    (htcw : ∀ tc ∈ st.textChats, tc.twilioID ≠ env.freshChannelSid)
    (htci : ∀ tc ∈ st.textChats, tc.id ≠ env.freshTextChatId)
    (hfail : ∀ k, env.fails k = false) :
    ∃ s2 : ServiceState,
      handleCreateChatResolved env (run1State env st A B u) B "private" title [A] false
        = (.ok env.freshChannelSid env.freshTextChatId, s2)
      ∧ s2.channels.length = st.channels.length + 1 := by
  unfold handleCreateChatResolved run1State
  dsimp only
  simp only [beq_self_eq_true, List.length_cons, List.length_nil, Nat.zero_add,
    Bool.not_false, Bool.and_self, Bool.and_true, Bool.true_and, List.head?_cons,
    if_true, reduceIte]
  rw [dmUniqueName_comm B.id A.id]
  rw [List.filter_append,
    List.filter_eq_nil_iff.mpr (fun c hc => by simpa using hkey c hc)]
  rw [show (List.filter (fun x => decide (x.uniqueName = dmUniqueName A.id B.id))
      [dmChannel env A B]) = [dmChannel env A B] from by simp [dmChannel, List.filter]]
  dsimp only [List.nil_append]
  rw [if_neg (show ¬ B.id ∈ ((dmChannel env A B).members.map fun x => x.identity) from by
    simp [dmChannel, hBA])]
  rw [hfail (MutKind.memberCreate B.id)]
  simp only [Bool.false_eq_true, if_false]
  rw [addMember_append _ _ _ _ _ _ rfl hsid]
  rw [createInvitesExisting_skip env (dmChannel env A B).sid
    ((dmChannel env A B).members.map fun x => x.identity)
    ((dmChannel env A B).invites.map fun x => x.identity) A _
    (Or.inl (by simp [dmChannel]))]
  dsimp only
  unfold finishCreateChat
  rw [findChannel_append _ _ _ _ _ (by rfl) (by exact fun c hc h1 => hsid c hc h1)]
  dsimp only
  rw [getOrCreateTextChat_found_last env _ _ _ _ (dmTextChat env A B) _
    (fun t ht h1 => htcw t ht h1) rfl (by rfl)]
  dsimp only
  rw [updateTextChatACLs_private]
  rw [saveTextChat_append _ _ _ (dmTextChat env A B) _
    (fun t ht h1 => htci t ht h1) (by rfl)]
  refine ⟨_, rfl, ?_⟩
  simp

/-- **C2**: the DM unique key is symmetric — `A` inviting `B` and `B`
inviting `A` compute the same key (identities joined by `-` in
lexicographic order, truncated to 64 characters) — and consequently, after
`A` has created the DM with `B`, a `createChat` from `B` inviting `A`
resolves to the same channel: it answers with the same channel SID and
mirror-record id and creates no second channel. -/
theorem c2_dm_key_symmetric (env : Env) (st : ServiceState) (A B : Profile)
    (title : String)
    (hA : getUserProfileByID env A.id = some A)
    (hB : getUserProfileByID env B.id = some B)
    (hAB : A.id ≠ B.id)
    (ht : strTrim title = title) (h5 : ¬ strLength title < 5) (hne : title ≠ "")
    (hkey : ∀ c ∈ st.channels, c.uniqueName ≠ dmUniqueName A.id B.id)
    (hsid : ∀ c ∈ st.channels, c.sid ≠ env.freshChannelSid)
    (htcw : ∀ tc ∈ st.textChats, tc.twilioID ≠ env.freshChannelSid)
    (htci : ∀ tc ∈ st.textChats, tc.id ≠ env.freshTextChatId)
    (hfail : ∀ k, env.fails k = false) :
    dmUniqueName A.id B.id = dmUniqueName B.id A.id
    ∧ ∃ s1 s2 : ServiceState,
        handleCreateChat env st A ⟨some [JVal.jstr B.id], some "private", some title, false⟩
          = (.ok env.freshChannelSid env.freshTextChatId, s1)
        ∧ handleCreateChat env s1 B ⟨some [JVal.jstr A.id], some "private", some title, false⟩
          = (.ok env.freshChannelSid env.freshTextChatId, s2)
        ∧ s2.channels.length = s1.channels.length := by
  refine ⟨dmUniqueName_comm A.id B.id, ?_⟩
  obtain ⟨u, hrun1⟩ := createChat_dm_run1 env st A B title hkey hsid htcw htci hfail
  have hentry1 := handleCreateChat_entry env st A [B] "private" title false
    (Or.inr rfl) ht h5 hne
    (by intro p hp; rw [List.mem_singleton] at hp; subst hp; exact hB)
    (by intro p hp; rw [List.mem_singleton] at hp; subst hp; exact fun h => hAB h.symm)
  have hentry2 := handleCreateChat_entry env (run1State env st A B u) B [A] "private"
    title false (Or.inr rfl) ht h5 hne
    (by intro p hp; rw [List.mem_singleton] at hp; subst hp; exact hA)
    (by intro p hp; rw [List.mem_singleton] at hp; subst hp; exact hAB)
  simp only [List.map_cons, List.map_nil] at hentry1 hentry2
  obtain ⟨s2, hrun2, hlen⟩ := createChat_dm_run2_swapped env st A B title u
    (fun h => hAB h.symm) hkey hsid htcw htci hfail
  refine ⟨run1State env st A B u, s2, ?_, ?_, ?_⟩
  · rw [hentry1, hrun1]
  · rw [hentry2, hrun2]
  · rw [hlen]
    simp [run1State]

/-- Environment for the C2 witness scenario. -/
def c2Env : Env :=
  { conf := "conf1", profiles := [⟨"alice", "Alice", "uA"⟩, ⟨"bob", "Bob", "uB"⟩],
    managerUserIds := [], fails := fun _ => false, uuid := "uuid0002",
    freshChannelSid := "CH2", freshTextChatId := "TC2" }

/-- Witness for C2 at a concrete input. -/
theorem c2_dm_key_symmetric_witness :
    dmUniqueName "alice" "bob" = dmUniqueName "bob" "alice"
    ∧ ∃ s1 s2 : ServiceState,
        handleCreateChat c2Env ⟨[], [], []⟩ ⟨"alice", "Alice", "uA"⟩
            ⟨some [JVal.jstr "bob"], some "private", some "Hello there", false⟩
          = (.ok "CH2" "TC2", s1)
        ∧ handleCreateChat c2Env s1 ⟨"bob", "Bob", "uB"⟩
            ⟨some [JVal.jstr "alice"], some "private", some "Hello there", false⟩
          = (.ok "CH2" "TC2", s2)
        ∧ s2.channels.length = s1.channels.length :=
  c2_dm_key_symmetric c2Env ⟨[], [], []⟩ ⟨"alice", "Alice", "uA"⟩ ⟨"bob", "Bob", "uB"⟩
    "Hello there" (by decide) (by decide) (by decide) (by decide) (by decide) (by decide)
    (by simp) (by simp) (by simp) (by simp) (fun k => rfl)

lemma filter_sid_append (stc : List Channel) (c : Channel) (s : String)
    (hs : ∀ c' ∈ stc, c'.sid ≠ s) (hc : c.sid = s) :
    ((stc ++ [c]).filter (·.sid ≠ s)) = stc := by
  rw [List.filter_append, List.filter_eq_self.mpr (fun x hx => by simpa using hs x hx)]
  simp [List.filter, hc]

lemma createInvitesFresh_fail_singleton (env : Env) (sid : String) (p : Profile)
    (s : ServiceState) (h : env.fails (.inviteCreate p.id) = true) :
    createInvitesFresh env sid [p] s = .error s := by
  unfold createInvitesFresh
  rw [h]
  simp

/-- **C3**: compensation on the new-channel path, no compensation on the
existing-channel path.  If the requester's membership creation or the
invitee's invitation creation ultimately fails after the channel was
freshly created, the new channel is deleted through the retry wrapper and
the response is the 500 server error — the channel list is exactly as
before the request.  On the existing-channel path the same failure
propagates to the unhandled-error path (`next(e)`), no deletion happens and
the pre-existing channel is still present. -/
theorem c3_compensation (env : Env) (st : ServiceState) (A B : Profile) (title : String)
    (hB : getUserProfileByID env B.id = some B)
    (hBA : B.id ≠ A.id)
    (ht : strTrim title = title) (h5 : ¬ strLength title < 5) (hne : title ≠ "")
    (hkey : ∀ c ∈ st.channels, c.uniqueName ≠ dmUniqueName A.id B.id)
    (hsid : ∀ c ∈ st.channels, c.sid ≠ env.freshChannelSid)
    (hcreate : env.fails .channelCreate = false)
    (hremove : env.fails .channelRemove = false)
    (huser : ∀ i, env.fails (.userCreate i) = false)
    (hmi : env.fails (.memberCreate A.id) = true ∨ env.fails (.inviteCreate B.id) = true)
    (env2 : Env) (st2 : ServiceState) (A2 B2 : Profile) (title2 : String) (c : Channel)
    (rest : List Channel)
    (hB2 : getUserProfileByID env2 B2.id = some B2)
    (hB2A2 : B2.id ≠ A2.id)
    (ht2 : strTrim title2 = title2) (h52 : ¬ strLength title2 < 5) (hne2 : title2 ≠ "")
    (hfilter : st2.channels.filter (·.uniqueName = dmUniqueName A2.id B2.id) = c :: rest)
    (hnm : A2.id ∉ c.members.map (·.identity))
    (hmem2 : env2.fails (.memberCreate A2.id) = true) :
    (∃ s : ServiceState,
      handleCreateChat env st A ⟨some [JVal.jstr B.id], some "private", some title, false⟩
        = (.serverError "Failed to add or invite members.", s)
      ∧ s.channels = st.channels)
    ∧ handleCreateChat env2 st2 A2
        ⟨some [JVal.jstr B2.id], some "private", some title2, false⟩
      = (.nextErr, st2)
    ∧ c ∈ st2.channels := by
  have hentry := handleCreateChat_entry env st A [B] "private" title false
    (Or.inr rfl) ht h5 hne
    (by intro p hp; rw [List.mem_singleton] at hp; subst hp; exact hB)
    (by intro p hp; rw [List.mem_singleton] at hp; subst hp; exact hBA)
  have hentry2 := handleCreateChat_entry env2 st2 A2 [B2] "private" title2 false
    (Or.inr rfl) ht2 h52 hne2
    (by intro p hp; rw [List.mem_singleton] at hp; subst hp; exact hB2)
    (by intro p hp; rw [List.mem_singleton] at hp; subst hp; exact hB2A2)
  simp only [List.map_cons, List.map_nil] at hentry hentry2
  refine ⟨?_, ?_, ?_⟩
  · rw [hentry]
    unfold handleCreateChatResolved
    dsimp only
    simp only [beq_self_eq_true, List.length_cons, List.length_nil, Nat.zero_add,
      Bool.not_false, Bool.and_self, Bool.and_true, Bool.true_and, List.head?_cons,
      if_true, reduceIte]
    rw [List.filter_eq_nil_iff.mpr (fun ch hc => by simpa using hkey ch hc)]
    rw [hcreate]
    simp only [Bool.false_eq_true, if_false]
    obtain ⟨u, hu⟩ := ensureUsersLoop_noFail env st.users ([B] ++ [A])
      (fun p _ => huser _)
      ⟨st.channels ++
        [{ sid := env.freshChannelSid, uniqueName := dmUniqueName A.id B.id,
           friendlyName := dmUniqueName A.id B.id, createdBy := "system", type := "private",
           isDM := true, members := [], invites := [], messages := [] }],
        st.users, st.textChats⟩
    rw [hu]
    dsimp only
    by_cases hm : env.fails (.memberCreate A.id) = true
    · rw [hm]
      simp only [if_true]
      unfold compensate
      rw [hremove]
      simp only [Bool.false_eq_true, if_false]
      refine ⟨_, rfl, ?_⟩
      unfold ServiceState.removeChannel
      dsimp only
      exact filter_sid_append st.channels _ env.freshChannelSid hsid rfl
    · have hm' : env.fails (.memberCreate A.id) = false := by
        cases hx : env.fails (.memberCreate A.id)
        · rfl
        · exact absurd hx hm
      have hi : env.fails (.inviteCreate B.id) = true := by
        rcases hmi with h | h
        · exact absurd h hm
        · exact h
      rw [hm']
      simp only [Bool.false_eq_true, if_false]
      rw [addMember_append _ _ _ _ _ _ rfl hsid]
      rw [createInvitesFresh_fail_singleton env env.freshChannelSid B _ hi]
      dsimp only
      unfold compensate
      rw [hremove]
      simp only [Bool.false_eq_true, if_false]
      refine ⟨_, rfl, ?_⟩
      unfold ServiceState.removeChannel
      dsimp only
      exact filter_sid_append st.channels _ env.freshChannelSid hsid rfl
  · rw [hentry2]
    unfold handleCreateChatResolved
    dsimp only
    simp only [beq_self_eq_true, List.length_cons, List.length_nil, Nat.zero_add,
      Bool.not_false, Bool.and_self, Bool.and_true, Bool.true_and, List.head?_cons,
      if_true, reduceIte]
    rw [hfilter]
    dsimp only
    rw [if_neg hnm]
    rw [hmem2]
    simp only [if_true]
  · have hcmem : c ∈ st2.channels.filter (·.uniqueName = dmUniqueName A2.id B2.id) := by
      rw [hfilter]
      exact List.mem_cons_self c rest
    exact (List.mem_filter.mp hcmem).1

/-- Environment for the C3 witness, new-channel part: the invitation
creation for bob ultimately fails. -/
def c3EnvNew : Env :=
  { conf := "conf1", profiles := [⟨"bob", "Bob", "uB"⟩], managerUserIds := [],
    fails := fun k => k == MutKind.inviteCreate "bob", uuid := "uuid0003",
    freshChannelSid := "CH3", freshTextChatId := "TC3" }

/-- Environment for the C3 witness, existing-channel part: the requester's
membership creation ultimately fails. -/
def c3EnvExisting : Env :=
  { conf := "conf1", profiles := [⟨"bob", "Bob", "uB"⟩], managerUserIds := [],
    fails := fun k => k == MutKind.memberCreate "alice", uuid := "uuid0004",
    freshChannelSid := "CH4", freshTextChatId := "TC4" }

/-- The pre-existing DM channel of the C3 witness, of which alice is not yet
a member. -/
def c3Channel : Channel :=
  { sid := "CHD3", uniqueName := dmUniqueName "alice" "bob",
    friendlyName := "alice-bob", createdBy := "system", type := "private",
    isDM := true, members := [⟨"bob", .chanUser⟩], invites := [], messages := [] }

/-- Service state of the C3 witness, existing-channel part. -/
def c3State : ServiceState := ⟨[c3Channel], [], []⟩

/-- Witness for C3 at concrete inputs. -/
theorem c3_compensation_witness :
    (∃ s : ServiceState,
      handleCreateChat c3EnvNew ⟨[], [], []⟩ ⟨"alice", "Alice", "uA"⟩
          ⟨some [JVal.jstr "bob"], some "private", some "Hello there", false⟩
        = (.serverError "Failed to add or invite members.", s)
      ∧ s.channels = [])
    ∧ handleCreateChat c3EnvExisting c3State ⟨"alice", "Alice", "uA"⟩
        ⟨some [JVal.jstr "bob"], some "private", some "Hello there", false⟩
      = (.nextErr, c3State)
    ∧ c3Channel ∈ c3State.channels :=
  c3_compensation c3EnvNew ⟨[], [], []⟩ ⟨"alice", "Alice", "uA"⟩ ⟨"bob", "Bob", "uB"⟩
    "Hello there" (by decide) (by decide) (by decide) (by decide) (by decide)
    (by simp) (by simp) (by decide) (by decide) (fun i => rfl) (Or.inr (by decide))
    c3EnvExisting c3State ⟨"alice", "Alice", "uA"⟩ ⟨"bob", "Bob", "uB"⟩ "Hello there"
    c3Channel [] (by decide) (by decide) (by decide) (by decide) (by decide)
    (by decide) (by decide) (by decide)

end Clowdr
